import Mathlib

/-!
Verification of the saghat loan-assignment engine (`apps/loans/algorithm.py`
together with the data model in `apps/loans/models.py`,
`apps/payments/models.py`, `apps/users/models.py`).

Modelling conventions:
* Python `Decimal` values are embedded as exact rationals (`ℚ`); the source
  stores amounts in decimal fields and performs decimal arithmetic.
* `Decimal(str(math.log(float x)))` is abstracted as an explicit parameter
  `log : ℚ → ℚ`; every theorem quantifies over it (adding monotonicity
  hypotheses where a property genuinely depends on the shape of `ln`).
* The database is a record of lists; Django querysets become list
  operations.  `order_by(...).first()` becomes a fold keeping the
  first-encountered maximum (ties are broken by insertion order; for the
  per-user payment query ties cannot occur thanks to the
  `(user, jalali_year, jalali_month)` uniqueness constraint).
* `random.choice(pool)` is modelled by an externally supplied natural
  number `r`, the chosen element being `pool[r % pool.length]`.
* Persistence is explicit state passing: `createLoan` enforces the
  `unique_together (jalali_year, jalali_month)` constraint and either
  returns the extended database or fails; an `Except.error` result carries
  no database, so an error path never modifies state, mirroring
  `transaction.atomic` all-or-nothing semantics.
-/

namespace Saghat

/-- States of a `Loan` row (`LoanState` in `apps/loans/models.py`):
`initial` is the declared default, `active` means a member is repaying,
`no_one` means nobody received the loan this period. -/
inductive LoanState where
  | initial
  | active
  | no_one
deriving DecidableEq, Inhabited

/-- A member (`User` in `apps/users/models.py`). -/
structure User where
  id : Nat
  username : String
  balance : ℚ
  is_main : Bool
  is_active : Bool
  loan_request_amount : ℚ
deriving DecidableEq, Inhabited

/-- A periodic payment (`Payment` in `apps/payments/models.py`);
unique per `(user, jalali_year, jalali_month)`. -/
structure Payment where
  id : Nat
  user : Nat
  amount : ℚ
  jalali_year : Nat
  jalali_month : Nat
deriving DecidableEq, Inhabited

/-- A loan-repayment portion (`LoanPayment` in `apps/payments/models.py`),
linking a `Payment` to the `Loan` being repaid. -/
structure LoanPayment where
  payment : Nat
  loan : Nat
  amount : ℚ
deriving DecidableEq, Inhabited

/-- One entry of the `not_participated` audit list. -/
structure NotParticipatedEntry where
  user_id : Nat
  username : String
  reason : String
deriving DecidableEq, Inhabited

/-- One entry of the `participated` audit list; `point` is `"unlimited"`,
`"0"` or a decimal string. -/
structure ParticipatedEntry where
  user_id : Nat
  username : String
  point : String
deriving DecidableEq, Inhabited

/-- The structured audit log stored on a `Loan` row (`AssignmentLog` in
`apps/loans/algorithm.py`; the affordability dead-end additionally stores a
`note` key). -/
structure AssignmentLog where
  not_participated : List NotParticipatedEntry
  participated : List ParticipatedEntry
  selected : Option Nat
  random_pool : List Nat
  note : Option String
deriving DecidableEq, Inhabited

/-- A loan-allocation row (`Loan` in `apps/loans/models.py`). -/
structure Loan where
  user : Option Nat
  amount : Option ℚ
  state : LoanState
  jalali_year : Nat
  jalali_month : Nat
  created_at : Nat
  min_amount_for_each_payment : Option ℚ
  log : AssignmentLog
deriving DecidableEq, Inhabited

/-- The singleton fund configuration (`Config` in
`apps/payments/models.py`). -/
structure Config where
  min_membership_fee : ℚ
  max_month_for_loan_payment : Nat
  min_amount_for_loan_payment : ℚ
deriving DecidableEq, Inhabited

/-- The database state visible to the engine. -/
structure DB where
  users : List User
  payments : List Payment
  loan_payments : List LoanPayment
  loans : List Loan
  config : Config
deriving DecidableEq, Inhabited

/-- Intermediate scoring record (`UserScore` in `apps/loans/algorithm.py`);
`score = none` means "unlimited" (infinity). -/
structure UserScore where
  user_id : Nat
  username : String
  score : Option ℚ
  loan_request_amount : ℚ
deriving DecidableEq, Inhabited

/-! ### Database queries used by `compute_user_score` -/

/-- Is period `(y₂, m₂)` strictly later than `(y₁, m₁)`
(`order_by("-jalali_year", "-jalali_month")` comparison)? -/
def periodLt (y₁ m₁ y₂ m₂ : Nat) : Bool :=
  decide (y₁ < y₂ ∨ (y₁ = y₂ ∧ m₁ < m₂))

/-- `Payment.objects.filter(user=user).order_by("-jalali_year",
"-jalali_month").first()`: the user's payment with the latest period
(first-encountered maximum; per-user periods are unique). -/
def lastPayment (db : DB) (uid : Nat) : Option Payment :=
  (db.payments.filter (fun p => decide (p.user = uid))).foldl
    (fun acc p =>
      match acc with
      | none => some p
      | some q =>
        if periodLt q.jalali_year q.jalali_month p.jalali_year p.jalali_month
        then some p else some q)
    none

/-- The user owning a payment row, looked up by payment id
(the `payment__user` join). -/
def paymentUser (db : DB) (pid : Nat) : Option Nat :=
  (db.payments.find? (fun p => decide (p.id = pid))).map (·.user)

/-- `LoanPayment.objects.filter(payment__user=user).count()`. -/
def totalUserLoanPayments (db : DB) (uid : Nat) : Nat :=
  (db.loan_payments.filter
    (fun lp => decide (paymentUser db lp.payment = some uid))).length

/-- `Loan.objects.filter(user=user, state=LoanState.ACTIVE)`. -/
def activeLoans (db : DB) (uid : Nat) : List Loan :=
  db.loans.filter
    (fun l => decide (l.user = some uid ∧ l.state = LoanState.active))

/-- `...aggregate(total=Sum("amount"))["total"] or Decimal("0")`:
sum of the (non-null) amounts of the user's ACTIVE loans. -/
def totalLoanAmount (db : DB) (uid : Nat) : ℚ :=
  ((activeLoans db uid).filterMap (·.amount)).sum

/-- `Loan.objects.filter(user=user, state=ACTIVE).count()`. -/
def totalLoanUserGet (db : DB) (uid : Nat) : Nat :=
  (activeLoans db uid).length

/-- `Loan.objects.filter(user=user, state=ACTIVE)
.order_by("-created_at").first()`: first-encountered maximum of
`created_at`. -/
def previousLoan (db : DB) (uid : Nat) : Option Loan :=
  (activeLoans db uid).foldl
    (fun acc l =>
      match acc with
      | none => some l
      | some k => if k.created_at < l.created_at then some l else some k)
    none

/-- `Payment.objects.filter(user=user).count()`. -/
def totalPaymentsCount (db : DB) (uid : Nat) : Nat :=
  (db.payments.filter (fun p => decide (p.user = uid))).length

/-- `LoanPayment.objects.filter(payment__user=user)
.values("payment__jalali_year", "payment__jalali_month")
.distinct().count()`: number of distinct periods in which the user made a
loan-repayment portion. -/
def monthsWithLoanPayment (db : DB) (uid : Nat) : Nat :=
  let joined := db.loan_payments.filterMap
    (fun (lp : LoanPayment) =>
      db.payments.find? (fun (p : Payment) => decide (p.id = lp.payment)))
  let mine := joined.filter (fun p => decide (p.user = uid))
  (mine.map (fun p => (p.jalali_year, p.jalali_month))).dedup.length

/-- `max(0, total_payments_count - months_with_loan_payment)`
(`Nat` subtraction is already floored at 0). -/
def totalMonthNoLoan (db : DB) (uid : Nat) : Nat :=
  totalPaymentsCount db uid - monthsWithLoanPayment db uid

/-! ### The score calculator -/

/-- The denominator product of `compute_user_score`:
`total_payment_for_last_month * total_user_loan_payments
* log_total_loan_amount * total_loan_user_get * log_loan_request`. -/
def denomProduct (log : ℚ → ℚ) (pay : ℚ) (countLP : Nat) (totalLoan : ℚ)
    (countLoans : Nat) (request : ℚ) : ℚ :=
  pay * (countLP : ℚ) * log totalLoan * (countLoans : ℚ) * log request

/-- The `log_previous_loan` numerator factor: log of the most recent ACTIVE
loan amount, clamped to 0 when the loan is missing, its amount is null or
nonpositive, or the log is nonpositive.  `prevLoan = some a` carries the
(nullable) `amount` of the most recent ACTIVE loan. -/
def logPrevLoanFactor (log : ℚ → ℚ) (prevLoan : Option (Option ℚ)) : ℚ :=
  match prevLoan with
  | none => 0
  | some none => 0
  | some (some a) =>
    if a ≤ 0 then 0
    else if 0 < log a then log a else 0

/-- The `log_balance` numerator factor, clamped to 0 under the same rule. -/
def logBalanceFactor (log : ℚ → ℚ) (balance : ℚ) : ℚ :=
  if balance ≤ 0 then 0
  else if 0 < log balance then log balance else 0

/-- The clamped numerator product
`log_previous_loan * log_balance * total_month_no_loan`. -/
def clampedNumerator (log : ℚ → ℚ) (prevLoan : Option (Option ℚ))
    (balance : ℚ) (months : Nat) : ℚ :=
  logPrevLoanFactor log prevLoan * logBalanceFactor log balance * (months : ℚ)

/-- Straight-line body of `compute_user_score`, taking the queried facts as
arguments: the sequential denominator checks (each short-circuiting to
`none`, i.e. "unlimited"), the residual `denominator <= 0` check, the
clamped numerator factors, and the final division.  `lastPay` is the amount
of the most recent payment (`none` when no payment exists), `prevLoan` the
(nullable) amount of the most recent ACTIVE loan (`none` when no such loan
exists). -/
def scoreCore (log : ℚ → ℚ) (lastPay : Option ℚ) (countLP : Nat)
    (totalLoan : ℚ) (countLoans : Nat) (request : ℚ)
    (prevLoan : Option (Option ℚ)) (balance : ℚ) (monthsNoLoan : Nat) :
    Option ℚ :=
  match lastPay with
  | none => none
  | some pay =>
    if pay ≤ 0 then none
    else if countLP = 0 then none
    else if totalLoan ≤ 0 then none
    else if log totalLoan ≤ 0 then none
    else if countLoans = 0 then none
    else if request ≤ 0 then none
    else if log request ≤ 0 then none
    else if denomProduct log pay countLP totalLoan countLoans request ≤ 0 then
      none
    else if clampedNumerator log prevLoan balance monthsNoLoan ≤ 0 then
      some 0
    else
      some (clampedNumerator log prevLoan balance monthsNoLoan /
        denomProduct log pay countLP totalLoan countLoans request)

/-- `compute_user_score(user)` from `apps/loans/algorithm.py`: each Django
query becomes the corresponding list query above, and the pure check/divide
sequence is `scoreCore`.  Result `none` means "unlimited". -/
def compute_user_score (log : ℚ → ℚ) (db : DB) (u : User) : Option ℚ :=
  scoreCore log
    ((lastPayment db u.id).map Payment.amount)
    (totalUserLoanPayments db u.id)
    (totalLoanAmount db u.id)
    (totalLoanUserGet db u.id)
    u.loan_request_amount
    ((previousLoan db u.id).map Loan.amount)
    u.balance
    (totalMonthNoLoan db u.id)

/-! ### The assignment orchestrator -/

/-- `User.objects.filter(is_active=True)`. -/
def activeUsers (db : DB) : List User :=
  db.users.filter (·.is_active)

/-- Active users with no `Payment` row for the target period
(`unpaid_users` in `run_loan_assignment`). -/
def unpaidUsers (db : DB) (y m : Nat) : List User :=
  (activeUsers db).filter
    (fun u => ! db.payments.any
      (fun p => decide (p.user = u.id ∧ p.jalali_year = y ∧ p.jalali_month = m)))

/-- The `ValueError` message raised when some active users have not paid. -/
def unpaidMessage (y m : Nat) (names : List String) : String :=
  "Not all users have paid for " ++ toString y ++ "/" ++ toString m ++
    ". Unpaid: " ++ String.intercalate ", " names

/-- `saghat_balance`: sum of `balance` over all active users
(`aggregate(total=Sum("balance"))["total"] or Decimal("0")`). -/
def saghatBalance (db : DB) : ℚ :=
  ((db.users.filter (·.is_active)).map (·.balance)).sum

/-- `user.has_active_loan` (property on `User` in `apps/users/models.py`):
the user has a loan row in state ACTIVE. -/
def hasActiveLoan (db : DB) (uid : Nat) : Bool :=
  db.loans.any
    (fun l => decide (l.user = some uid ∧ l.state = LoanState.active))

/-- The eligibility if-chain of `run_loan_assignment`: the first failing
condition, with its recorded reason, or `none` when the user is eligible. -/
def eligibilityReason (db : DB) (u : User) : Option String :=
  if u.is_main = false ∧ u.balance < u.loan_request_amount then
    some ("loan_request_amount (" ++ toString u.loan_request_amount ++
      ") > balance (" ++ toString u.balance ++ ")")
  else if hasActiveLoan db u.id then
    some "User has an active loan"
  else if u.loan_request_amount ≤ 0 then
    some "loan_request_amount is 0 (opted out)"
  else
    none

/-- The `not_participated` audit entries accumulated by the eligibility
loop: one entry, with the first failing reason, per excluded active user,
in user order. -/
def notParticipatedList (db : DB) : List NotParticipatedEntry :=
  (activeUsers db).filterMap
    (fun u => (eligibilityReason db u).map
      (fun reason => ⟨u.id, u.username, reason⟩))

/-- `eligible_users`: the active users passing all three eligibility
conditions, in user order. -/
def eligibleUsers (db : DB) : List User :=
  (activeUsers db).filter (fun u => decide (eligibilityReason db u = none))

/-- Rendering of a score in the audit log: `"unlimited"` or the decimal
string. -/
def scoreStr (s : Option ℚ) : String :=
  match s with
  | none => "unlimited"
  | some q => toString q

/-- The `participated` audit entries: one per eligible user, carrying the
rendered score. -/
def participatedList (log : ℚ → ℚ) (db : DB) : List ParticipatedEntry :=
  (eligibleUsers db).map
    (fun u => ⟨u.id, u.username, scoreStr (compute_user_score log db u)⟩)

/-- `user_scores`: the scoring records for the eligible users. -/
def userScores (log : ℚ → ℚ) (db : DB) : List UserScore :=
  (eligibleUsers db).map
    (fun u => ⟨u.id, u.username, compute_user_score log db u,
      u.loan_request_amount⟩)

/-- `fundable_scores`: scored users whose request fits within
`saghat_balance`. -/
def fundableScores (log : ℚ → ℚ) (db : DB) : List UserScore :=
  (userScores log db).filter
    (fun us => decide (us.loan_request_amount ≤ saghatBalance db))

/-- `max_score_group`: all unlimited-score fundable users if any exist,
otherwise the fundable users sharing the maximum finite score. -/
def maxScoreGroup (log : ℚ → ℚ) (db : DB) : List UserScore :=
  if (fundableScores log db).any (fun us => decide (us.score = none)) then
    (fundableScores log db).filter (fun us => decide (us.score = none))
  else
    match ((fundableScores log db).filterMap (·.score)).max? with
    | some mx =>
      (fundableScores log db).filter (fun us => decide (us.score = some mx))
    | none => []

/-- The uniqueness-violation error surfaced when a `Loan` row for the same
period already exists. -/
def dupMessage : String :=
  "duplicate key: a Loan for this (jalali_year, jalali_month) already exists"

/-- `Loan.objects.create(...)` inside `transaction.atomic()`: fails with a
uniqueness violation when a loan row for the same
`(jalali_year, jalali_month)` already exists (the `unique_together`
constraint of `Loan.Meta`), otherwise atomically appends the row. -/
def createLoan (db : DB) (l : Loan) : Except String (DB × Loan) :=
  if db.loans.any (fun l0 =>
      decide (l0.jalali_year = l.jalali_year ∧
        l0.jalali_month = l.jalali_month)) then
    Except.error dupMessage
  else
    Except.ok ({ db with loans := db.loans ++ [l] }, l)

/-- The note stored when nobody's request fits the fund balance. -/
def affordNote : String :=
  "No user\x27s loan_request_amount fits within saghat_balance"

/-- The `NO_ONE` loan row created when nobody is eligible: accumulated
`not_participated` entries, no `participated` entries, no winner. -/
def noEligibleRow (db : DB) (y m : Nat) : Loan :=
  { user := none, amount := none, state := LoanState.no_one,
    jalali_year := y, jalali_month := m,
    created_at := db.loans.length,
    min_amount_for_each_payment := none,
    log := ⟨notParticipatedList db, [], none, [], none⟩ }

/-- The `NO_ONE` loan row created when nobody's request fits the fund
balance: both audit lists plus the affordability note. -/
def noFundableRow (log : ℚ → ℚ) (db : DB) (y m : Nat) : Loan :=
  { user := none, amount := none, state := LoanState.no_one,
    jalali_year := y, jalali_month := m,
    created_at := db.loans.length,
    min_amount_for_each_payment := none,
    log := ⟨notParticipatedList db, participatedList log db, none, [],
      some affordNote⟩ }

/-- The `ACTIVE` loan row created for the winner `w`: member = winner,
amount = the winner's requested amount, `min_amount_for_each_payment`
copied from the current fund configuration, full audit log. -/
def activeRow (log : ℚ → ℚ) (db : DB) (y m : Nat) (w : UserScore) : Loan :=
  { user := some w.user_id,
    amount := some w.loan_request_amount,
    state := LoanState.active,
    jalali_year := y, jalali_month := m,
    created_at := db.loans.length,
    min_amount_for_each_payment := some db.config.min_amount_for_loan_payment,
    log := ⟨notParticipatedList db, participatedList log db, some w.user_id,
      (maxScoreGroup log db).map UserScore.user_id, none⟩ }

/-- `run_loan_assignment(jalali_year, jalali_month)` from
`apps/loans/algorithm.py`.  `r` supplies the randomness of
`random.choice` (the chosen element is `pool[r % pool.length]`); an
`Except.error` result models a raised exception, with no state change. -/
def run_loan_assignment (log : ℚ → ℚ) (r : Nat) (db : DB) (y m : Nat) :
    Except String (DB × Loan) :=
  if unpaidUsers db y m ≠ [] then
    Except.error (unpaidMessage y m ((unpaidUsers db y m).map (·.username)))
  else if eligibleUsers db = [] then
    createLoan db (noEligibleRow db y m)
  else if fundableScores log db = [] then
    createLoan db (noFundableRow log db y m)
  else
    match (maxScoreGroup log db)[r % (maxScoreGroup log db).length]? with
    | none => Except.error "random pool is empty"
    | some w => createLoan db (activeRow log db y m w)

/-! ### Helper predicates and lemmas about the score calculator -/

/-- All five denominator factors are positive (the member does not trip any
short-circuit): a positive most recent payment exists, at least one
loan-repayment portion, positive ACTIVE-loan total with positive log, at
least one ACTIVE loan, and a positive request with positive log. -/
def denomFactorsPos (log : ℚ → ℚ) (lastPay : Option ℚ) (countLP : Nat)
    (totalLoan : ℚ) (countLoans : Nat) (request : ℚ) : Prop :=
  (∃ a, lastPay = some a ∧ 0 < a) ∧ countLP ≠ 0 ∧ 0 < totalLoan ∧
    0 < log totalLoan ∧ countLoans ≠ 0 ∧ 0 < request ∧ 0 < log request

/-- A loan row for period `(y, m)` exists in the database. -/
def hasLoanForPeriod (db : DB) (y m : Nat) : Prop :=
  ∃ l ∈ db.loans, l.jalali_year = y ∧ l.jalali_month = m

instance (db : DB) (y m : Nat) : Decidable (hasLoanForPeriod db y m) := by
  unfold hasLoanForPeriod; infer_instance

/-- At most one loan row per `(jalali_year, jalali_month)` pair — the
invariant enforced by `unique_together` on `Loan.Meta`. -/
def uniquePeriods (db : DB) : Prop :=
  db.loans.Pairwise (fun a b =>
    ¬ (a.jalali_year = b.jalali_year ∧ a.jalali_month = b.jalali_month))

/-! ### Concrete fixtures used by witnesses and counterexamples -/

/-- A concrete stand-in for `Decimal(str(math.log(float x)))`: strictly
monotone, positive exactly on `(1, ∞)`, like the natural log on the inputs
exercised below. -/
def wLog : ℚ → ℚ := fun q => q - 1

/-- Fund configuration fixture. -/
def wConfig : Config := ⟨20, 24, 20⟩

/-- An ACTIVE loan of amount 10 previously granted to user 1. -/
def wLoan1 : Loan :=
  { user := some 1, amount := some 10, state := LoanState.active,
    jalali_year := 1402, jalali_month := 5, created_at := 0,
    min_amount_for_each_payment := some 20,
    log := ⟨[], [], none, [], none⟩ }

/-- User 1 paid 3 in period 1403/1. -/
def wPay1 : Payment := ⟨1, 1, 3, 1403, 1⟩

/-- A loan-repayment portion attached to payment 1. -/
def wLP1 : LoanPayment := ⟨1, 0, 2⟩

/-- User 1: balance 5, requesting 10, active, not main. -/
def wUserA : User := ⟨1, "alice", 5, false, true, 10⟩

/-- User 1 with the balance raised from 5 to 6, all else fixed. -/
def wUserAplus : User := { wUserA with balance := 6 }

/-- Database for the score-calculator witnesses: user 1 has one payment
(with a repayment portion in the same period, so zero paid-but-unrepaid
months) and one previous ACTIVE loan. -/
def wDB0 : DB := ⟨[wUserA], [wPay1], [wLP1], [wLoan1], wConfig⟩

/-- Modelled from the spec: "score = numerator / denominator, using
fixed-point decimal division (not floating point) at a fixed precision
(8 fractional digits in the source domain)".  Rounding to the nearest
integer, ties to even (the decimal module's default rounding). -/
def roundHalfEven (q : ℚ) : ℤ :=
  if q - ⌊q⌋ < 1 / 2 then ⌊q⌋
  else if 1 / 2 < q - ⌊q⌋ then ⌊q⌋ + 1
  else if Even ⌊q⌋ then ⌊q⌋ else ⌊q⌋ + 1

/-- Modelled from the spec: quantization of a value to exactly 8 fractional
decimal digits, as the claimed fixed-point division would produce. -/
def quantize8 (q : ℚ) : ℚ :=
  (roundHalfEven (q * 10 ^ 8) : ℚ) / 10 ^ 8

/-- User 9: balance 5, requesting 5, active, not main. -/
def wUserB : User := ⟨9, "bob", 5, false, true, 5⟩

/-- User 9 paid 3 in period 1403/2 (the most recent payment). -/
def wPay9a : Payment := ⟨2, 9, 3, 1403, 2⟩

/-- User 9 paid 3 in period 1403/1. -/
def wPay9b : Payment := ⟨3, 9, 3, 1403, 1⟩

/-- A loan-repayment portion attached to payment 3 (period 1403/1). -/
def wLP9 : LoanPayment := ⟨3, 0, 2⟩

/-- An ACTIVE loan of amount 10 previously granted to user 9. -/
def wLoan9 : Loan :=
  { user := some 9, amount := some 10, state := LoanState.active,
    jalali_year := 1402, jalali_month := 7, created_at := 0,
    min_amount_for_each_payment := some 20,
    log := ⟨[], [], none, [], none⟩ }

/-- Database for the exact-division witnesses: user 9 has two payments,
one repayment portion, one previous ACTIVE loan, and a score of exactly
1/3. -/
def wDB9 : DB := ⟨[wUserB], [wPay9a, wPay9b], [wLP9], [wLoan9], wConfig⟩

/-- A database with no users at all. -/
def wDBe : DB := ⟨[], [], [], [], wConfig⟩

/-- User 1 for the successful-run scenario: balance 100, requesting 50,
active, not main, no history. -/
def wUserR : User := ⟨1, "alice", 100, false, true, 50⟩

/-- User 1 paid 30 in period 1403/1. -/
def wPayR : Payment := ⟨1, 1, 30, 1403, 1⟩

/-- Database for the successful-run scenario: one active member with no
loan history who paid for the period. -/
def wDBr : DB := ⟨[wUserR], [wPayR], [], [], wConfig⟩

/-- User 1's scoring record in `wDBr`: unlimited (no repayment history). -/
def wScoreR : UserScore := ⟨1, "alice", none, 50⟩

/-- The ACTIVE allocation created by the successful run on `wDBr`. -/
def wLoanR : Loan := activeRow wLog wDBr 1403 1 wScoreR

/-- The database state after the successful run on `wDBr`. -/
def wDBr2 : DB := { wDBr with loans := wDBr.loans ++ [wLoanR] }

/-- Opted-out user 21 (`loan_request_amount = 0`). -/
def wUserC : User := ⟨21, "carol", 40, false, true, 0⟩

/-- Opted-out user 22 (`loan_request_amount = 0`). -/
def wUserD : User := ⟨22, "dave", 60, false, true, 0⟩

/-- User 21 paid 20 in period 1403/1. -/
def wPayC : Payment := ⟨4, 21, 20, 1403, 1⟩

/-- User 22 paid 20 in period 1403/1. -/
def wPayD : Payment := ⟨5, 22, 20, 1403, 1⟩

/-- Database where both active members opted out. -/
def wDBo : DB := ⟨[wUserC, wUserD], [wPayC, wPayD], [], [], wConfig⟩

/-- Main user 31: balance 10, requesting 11 (more than the whole fund). -/
def wUserE : User := ⟨31, "erin", 10, true, true, 11⟩

/-- User 31 paid 10 in period 1403/1. -/
def wPayE : Payment := ⟨6, 31, 10, 1403, 1⟩

/-- Database with a single eligible (main) member whose request exceeds
the fund balance. -/
def wDBa : DB := ⟨[wUserE], [wPayE], [], [], wConfig⟩

theorem scoreCore_none_iff (log : ℚ → ℚ) (lastPay : Option ℚ)
    (countLP : Nat) (totalLoan : ℚ) (countLoans : Nat) (request : ℚ)
    (prevLoan : Option (Option ℚ)) (balance : ℚ) (monthsNoLoan : Nat) :
    scoreCore log lastPay countLP totalLoan countLoans request prevLoan
        balance monthsNoLoan = none ↔
      (lastPay = none ∨ ∃ a, lastPay = some a ∧ a ≤ 0) ∨
        countLP = 0 ∨
        (totalLoan ≤ 0 ∨ log totalLoan ≤ 0) ∨
        countLoans = 0 ∨
        (request ≤ 0 ∨ log request ≤ 0 ∨
          ∃ a, lastPay = some a ∧
            denomProduct log a countLP totalLoan countLoans request ≤ 0) := by
  cases lastPay with
  | none => simp [scoreCore]
  | some a =>
    simp only [scoreCore]
    split_ifs with h1 h2 h3 h4 h5 h6 h7 h8 h9 <;> simp_all

theorem denomProduct_pos (log : ℚ → ℚ) (pay : ℚ) (countLP : Nat)
    (totalLoan : ℚ) (countLoans : Nat) (request : ℚ)
    (h1 : 0 < pay) (h2 : countLP ≠ 0) (h4 : 0 < log totalLoan)
    (h5 : countLoans ≠ 0) (h7 : 0 < log request) :
    0 < denomProduct log pay countLP totalLoan countLoans request := by
  have hc2 : (0 : ℚ) < (countLP : ℚ) := by
    exact_mod_cast Nat.pos_of_ne_zero h2
  have hc5 : (0 : ℚ) < (countLoans : ℚ) := by
    exact_mod_cast Nat.pos_of_ne_zero h5
  unfold denomProduct
  exact mul_pos (mul_pos (mul_pos (mul_pos h1 hc2) h4) hc5) h7

theorem scoreCore_some_pos (log : ℚ → ℚ) (pay : ℚ) (countLP : Nat)
    (totalLoan : ℚ) (countLoans : Nat) (request : ℚ)
    (prevLoan : Option (Option ℚ)) (balance : ℚ) (monthsNoLoan : Nat)
    (h1 : 0 < pay) (h2 : countLP ≠ 0) (h3 : 0 < totalLoan)
    (h4 : 0 < log totalLoan) (h5 : countLoans ≠ 0) (h6 : 0 < request)
    (h7 : 0 < log request)
    (h8 : 0 < clampedNumerator log prevLoan balance monthsNoLoan) :
    scoreCore log (some pay) countLP totalLoan countLoans request prevLoan
        balance monthsNoLoan =
      some (clampedNumerator log prevLoan balance monthsNoLoan /
        denomProduct log pay countLP totalLoan countLoans request) := by
  have hden : 0 < denomProduct log pay countLP totalLoan countLoans request :=
    denomProduct_pos log pay countLP totalLoan countLoans request h1 h2 h4 h5 h7
  simp only [scoreCore]
  rw [if_neg (not_le.2 h1), if_neg h2, if_neg (not_le.2 h3),
    if_neg (not_le.2 h4), if_neg h5, if_neg (not_le.2 h6),
    if_neg (not_le.2 h7), if_neg (not_le.2 hden), if_neg (not_le.2 h8)]

theorem scoreCore_zero_of_num_nonpos (log : ℚ → ℚ) (pay : ℚ) (countLP : Nat)
    (totalLoan : ℚ) (countLoans : Nat) (request : ℚ)
    (prevLoan : Option (Option ℚ)) (balance : ℚ) (monthsNoLoan : Nat)
    (h1 : 0 < pay) (h2 : countLP ≠ 0) (h3 : 0 < totalLoan)
    (h4 : 0 < log totalLoan) (h5 : countLoans ≠ 0) (h6 : 0 < request)
    (h7 : 0 < log request)
    (h8 : clampedNumerator log prevLoan balance monthsNoLoan ≤ 0) :
    scoreCore log (some pay) countLP totalLoan countLoans request prevLoan
        balance monthsNoLoan = some 0 := by
  have hden : 0 < denomProduct log pay countLP totalLoan countLoans request :=
    denomProduct_pos log pay countLP totalLoan countLoans request h1 h2 h4 h5 h7
  simp only [scoreCore]
  rw [if_neg (not_le.2 h1), if_neg h2, if_neg (not_le.2 h3),
    if_neg (not_le.2 h4), if_neg h5, if_neg (not_le.2 h6),
    if_neg (not_le.2 h7), if_neg (not_le.2 hden), if_pos h8]

theorem logPrevLoanFactor_nonneg (log : ℚ → ℚ)
    (prevLoan : Option (Option ℚ)) : 0 ≤ logPrevLoanFactor log prevLoan := by
  rcases prevLoan with _ | _ | a
  · simp [logPrevLoanFactor]
  · simp [logPrevLoanFactor]
  · simp only [logPrevLoanFactor]
    split_ifs with h1 h2
    · exact le_refl 0
    · exact le_of_lt h2
    · exact le_refl 0

theorem logBalanceFactor_nonneg (log : ℚ → ℚ) (balance : ℚ) :
    0 ≤ logBalanceFactor log balance := by
  unfold logBalanceFactor
  split_ifs with h1 h2
  · exact le_refl 0
  · exact le_of_lt h2
  · exact le_refl 0

/-- When the clamped numerator is positive, each of its three factors is
positive, the balance is positive with a positive log (and the factor is
that log). -/
theorem clampedNumerator_pos_inv (log : ℚ → ℚ)
    (prevLoan : Option (Option ℚ)) (balance : ℚ) (months : Nat)
    (h : 0 < clampedNumerator log prevLoan balance months) :
    0 < logPrevLoanFactor log prevLoan ∧
      0 < balance ∧ 0 < log balance ∧
      logBalanceFactor log balance = log balance ∧
      months ≠ 0 := by
  unfold clampedNumerator at h
  have hp : 0 < logPrevLoanFactor log prevLoan := by
    rcases (logPrevLoanFactor_nonneg log prevLoan).lt_or_eq with hx | hx
    · exact hx
    · rw [← hx] at h; simp at h
  have hbf : 0 < logBalanceFactor log balance := by
    rcases (logBalanceFactor_nonneg log balance).lt_or_eq with hx | hx
    · exact hx
    · rw [← hx] at h; simp at h
  have hm : months ≠ 0 := by
    intro h0
    rw [h0] at h; simp at h
  refine ⟨hp, ?_, ?_, ?_, hm⟩ <;>
    unfold logBalanceFactor at hbf <;> try unfold logBalanceFactor
  · by_contra hb
    push_neg at hb
    rw [if_pos hb] at hbf
    exact absurd hbf (by norm_num)
  · split_ifs at hbf with h1 h2
    · exact absurd hbf (by norm_num)
    · exact h2
    · exact absurd hbf (by norm_num)
  · split_ifs with h1 h2
    · rw [if_pos h1] at hbf; exact absurd hbf (by norm_num)
    · rfl
    · rw [if_neg h1, if_neg h2] at hbf; exact absurd hbf (by norm_num)

/-- Inversion: a positive finite score means every denominator guard
passed, the clamped numerator is positive, and the score is exactly
numerator over denominator. -/
theorem scoreCore_pos_inv (log : ℚ → ℚ) (lastPay : Option ℚ)
    (countLP : Nat) (totalLoan : ℚ) (countLoans : Nat) (request : ℚ)
    (prevLoan : Option (Option ℚ)) (balance : ℚ) (months : Nat) (s : ℚ)
    (h : scoreCore log lastPay countLP totalLoan countLoans request prevLoan
      balance months = some s) (hs : 0 < s) :
    ∃ pay, lastPay = some pay ∧ 0 < pay ∧ countLP ≠ 0 ∧ 0 < totalLoan ∧
      0 < log totalLoan ∧ countLoans ≠ 0 ∧ 0 < request ∧ 0 < log request ∧
      0 < clampedNumerator log prevLoan balance months ∧
      s = clampedNumerator log prevLoan balance months /
        denomProduct log pay countLP totalLoan countLoans request := by
  cases lastPay with
  | none => simp [scoreCore] at h
  | some pay =>
    simp only [scoreCore] at h
    split_ifs at h with h1 h2 h3 h4 h5 h6 h7 h8 h9
    · rw [Option.some_inj] at h
      rw [← h] at hs
      exact absurd hs (by norm_num)
    · rw [Option.some_inj] at h
      exact ⟨pay, rfl, not_le.1 h1, h2, not_le.1 h3, not_le.1 h4, h5,
        not_le.1 h6, not_le.1 h7, not_le.1 h9, h.symm⟩

/-- C1: for every member and history snapshot, `compute_user_score`
returns `none` ("unlimited") exactly when one of the five denominator
conditions holds — (1) no periodic payment exists or the most recent
payment's amount is nonpositive; (2) zero loan-repayment portions; (3) the
ACTIVE-allocation total is nonpositive or its log is nonpositive; (4) zero
ACTIVE allocations; (5) the request is nonpositive or its log is
nonpositive (or, residually, the denominator product is nonpositive) — the
definition performing these checks in exactly this order with
short-circuit; and when all five denominator factors are positive but the
clamped numerator product is nonpositive, it returns exactly the finite
score `0`, never unlimited. -/
theorem compute_user_score_unlimited_iff (log : ℚ → ℚ) (db : DB) (u : User) :
    (compute_user_score log db u = none ↔
      ((lastPayment db u.id).map Payment.amount = none ∨
        (∃ a, (lastPayment db u.id).map Payment.amount = some a ∧ a ≤ 0)) ∨
      totalUserLoanPayments db u.id = 0 ∨
      (totalLoanAmount db u.id ≤ 0 ∨ log (totalLoanAmount db u.id) ≤ 0) ∨
      totalLoanUserGet db u.id = 0 ∨
      (u.loan_request_amount ≤ 0 ∨ log u.loan_request_amount ≤ 0 ∨
        ∃ a, (lastPayment db u.id).map Payment.amount = some a ∧
          denomProduct log a (totalUserLoanPayments db u.id)
            (totalLoanAmount db u.id) (totalLoanUserGet db u.id)
            u.loan_request_amount ≤ 0)) ∧
    (denomFactorsPos log ((lastPayment db u.id).map Payment.amount)
        (totalUserLoanPayments db u.id) (totalLoanAmount db u.id)
        (totalLoanUserGet db u.id) u.loan_request_amount →
      clampedNumerator log ((previousLoan db u.id).map Loan.amount)
        u.balance (totalMonthNoLoan db u.id) ≤ 0 →
      compute_user_score log db u = some 0) := by
  constructor
  · exact scoreCore_none_iff log ((lastPayment db u.id).map Payment.amount)
      (totalUserLoanPayments db u.id) (totalLoanAmount db u.id)
      (totalLoanUserGet db u.id) u.loan_request_amount
      ((previousLoan db u.id).map Loan.amount) u.balance
      (totalMonthNoLoan db u.id)
  · rintro ⟨⟨a, ha, hapos⟩, h2, h3, h4, h5, h6, h7⟩ hnum
    unfold compute_user_score
    rw [ha]
    exact scoreCore_zero_of_num_nonpos log a (totalUserLoanPayments db u.id)
      (totalLoanAmount db u.id) (totalLoanUserGet db u.id)
      u.loan_request_amount ((previousLoan db u.id).map Loan.amount)
      u.balance (totalMonthNoLoan db u.id) hapos h2 h3 h4 h5 h6 h7 hnum

theorem wDB0_lastPayment : lastPayment wDB0 1 = some wPay1 := by
  norm_num [lastPayment, wDB0, wPay1, List.foldl_cons, List.foldl_nil]

theorem wDB0_countLP : totalUserLoanPayments wDB0 1 = 1 := by
  norm_num [totalUserLoanPayments, paymentUser, wDB0, wLP1, wPay1,
    List.find?]

theorem wDB0_totalLoanAmount : totalLoanAmount wDB0 1 = 10 := by
  norm_num [totalLoanAmount, activeLoans, wDB0, wLoan1,
    List.filterMap_cons, List.sum_cons]

theorem wDB0_countLoans : totalLoanUserGet wDB0 1 = 1 := by
  norm_num [totalLoanUserGet, activeLoans, wDB0, wLoan1]

theorem wDB0_previousLoan : previousLoan wDB0 1 = some wLoan1 := by
  norm_num [previousLoan, activeLoans, wDB0, wLoan1,
    List.foldl_cons, List.foldl_nil]

theorem wDB0_months : totalMonthNoLoan wDB0 1 = 0 := by
  norm_num [totalMonthNoLoan, totalPaymentsCount, monthsWithLoanPayment,
    wDB0, wPay1, wLP1, List.find?, List.filterMap_cons]

/-- C1 witness: at the concrete database `wDB0` all five denominator
factors of user 1 are positive, the clamped numerator is 0, and the score
is exactly the finite `0`. -/
theorem compute_user_score_unlimited_iff_witness :
    compute_user_score wLog wDB0 wUserA = some 0 :=
  (compute_user_score_unlimited_iff wLog wDB0 wUserA).2
    ⟨⟨3, by rw [show wUserA.id = 1 from rfl, wDB0_lastPayment]
            norm_num [wPay1], by norm_num⟩,
      by rw [show wUserA.id = 1 from rfl, wDB0_countLP]; norm_num,
      by rw [show wUserA.id = 1 from rfl, wDB0_totalLoanAmount]; norm_num,
      by rw [show wUserA.id = 1 from rfl, wDB0_totalLoanAmount]; norm_num [wLog],
      by rw [show wUserA.id = 1 from rfl, wDB0_countLoans]; norm_num,
      by norm_num [wUserA],
      by norm_num [wUserA, wLog]⟩
    (by rw [show wUserA.id = 1 from rfl, wDB0_previousLoan, wDB0_months]
        norm_num [clampedNumerator])

/-- Evaluation helper: with the `wDB0` query results and any balance, the
clamped numerator vanishes (zero paid-but-unrepaid months), so the score is
the finite 0. -/
theorem wDB0_score_clamped_zero (b : ℚ) :
    scoreCore wLog (some 3) 1 10 1 10 (some (some 10)) b 0 = some 0 :=
  scoreCore_zero_of_num_nonpos wLog 3 1 10 1 10 (some (some 10)) b 0
    (by norm_num) (by norm_num) (by norm_num) (by norm_num [wLog])
    (by norm_num) (by norm_num) (by norm_num [wLog])
    (by simp [clampedNumerator])

/-- C7 counterexample: user 1 in `wDB0` has the finite score 0 (all five
denominator factors positive, but zero paid-but-unrepaid months), and
raising the balance from 5 to 6 with every other input fixed leaves the
score at exactly 0 — so a merely finite score is not strictly increased by
a strictly increasing balance. -/
theorem score_balance_not_strict_mono :
    wUserA.balance < wUserAplus.balance ∧
    compute_user_score wLog wDB0 wUserA = some 0 ∧
    compute_user_score wLog wDB0 wUserAplus = some 0 := by
  refine ⟨by norm_num [wUserA, wUserAplus], ?_, ?_⟩
  · have h1 : compute_user_score wLog wDB0 wUserA =
        scoreCore wLog ((lastPayment wDB0 1).map Payment.amount)
          (totalUserLoanPayments wDB0 1) (totalLoanAmount wDB0 1)
          (totalLoanUserGet wDB0 1) 10
          ((previousLoan wDB0 1).map Loan.amount) 5
          (totalMonthNoLoan wDB0 1) := rfl
    rw [h1, wDB0_lastPayment, wDB0_countLP, wDB0_totalLoanAmount,
      wDB0_countLoans, wDB0_previousLoan, wDB0_months]
    exact wDB0_score_clamped_zero 5
  · have h1 : compute_user_score wLog wDB0 wUserAplus =
        scoreCore wLog ((lastPayment wDB0 1).map Payment.amount)
          (totalUserLoanPayments wDB0 1) (totalLoanAmount wDB0 1)
          (totalLoanUserGet wDB0 1) 10
          ((previousLoan wDB0 1).map Loan.amount) 6
          (totalMonthNoLoan wDB0 1) := rfl
    rw [h1, wDB0_lastPayment, wDB0_countLP, wDB0_totalLoanAmount,
      wDB0_countLoans, wDB0_previousLoan, wDB0_months]
    exact wDB0_score_clamped_zero 6

/-- C7 amended: holding every other input of the score computation fixed,
for any member with a finite POSITIVE score (and for any strictly monotone
log function, as the natural log is on positives): strictly increasing the
balance strictly increases the score, strictly increasing the requested
loan amount strictly decreases the score, and strictly increasing the count
of paid-but-unrepaid periods strictly increases the score. -/
theorem scoreCore_monotonicity (log : ℚ → ℚ)
    (hmono : ∀ x y : ℚ, 0 < x → x < y → log x < log y)
    (lastPay : Option ℚ) (countLP : Nat) (totalLoan : ℚ) (countLoans : Nat)
    (request : ℚ) (prevLoan : Option (Option ℚ)) (balance : ℚ)
    (months : Nat) (s : ℚ)
    (h : scoreCore log lastPay countLP totalLoan countLoans request prevLoan
      balance months = some s)
    (hs : 0 < s) :
    (∀ b₂, balance < b₂ →
      ∃ s₂, scoreCore log lastPay countLP totalLoan countLoans request
        prevLoan b₂ months = some s₂ ∧ s < s₂) ∧
    (∀ r₂, request < r₂ →
      ∃ s₂, scoreCore log lastPay countLP totalLoan countLoans r₂ prevLoan
        balance months = some s₂ ∧ s₂ < s) ∧
    (∀ m₂, months < m₂ →
      ∃ s₂, scoreCore log lastPay countLP totalLoan countLoans request
        prevLoan balance m₂ = some s₂ ∧ s < s₂) := by
  obtain ⟨pay, hpay, hp, hc2, ht, hlt, hc5, hr, hlr, hnum, hse⟩ :=
    scoreCore_pos_inv log lastPay countLP totalLoan countLoans request
      prevLoan balance months s h hs
  subst hpay
  obtain ⟨hprevFac, hbal, hlogbal, hbalFac, hm⟩ :=
    clampedNumerator_pos_inv log prevLoan balance months hnum
  have hden := denomProduct_pos log pay countLP totalLoan countLoans request
    hp hc2 hlt hc5 hlr
  have hmQ : (0 : ℚ) < (months : ℚ) := by
    exact_mod_cast Nat.pos_of_ne_zero hm
  have hbalProd : 0 < logPrevLoanFactor log prevLoan *
      logBalanceFactor log balance := by
    rw [hbalFac]; exact mul_pos hprevFac hlogbal
  refine ⟨?_, ?_, ?_⟩
  · intro b₂ hb
    have hb₂ : 0 < b₂ := lt_trans hbal hb
    have hlb : log balance < log b₂ := hmono balance b₂ hbal hb
    have hlb₂ : 0 < log b₂ := lt_trans hlogbal hlb
    have hfac₂ : logBalanceFactor log b₂ = log b₂ := by
      unfold logBalanceFactor
      rw [if_neg (not_le.2 hb₂), if_pos hlb₂]
    have hnumlt : clampedNumerator log prevLoan balance months <
        clampedNumerator log prevLoan b₂ months := by
      unfold clampedNumerator
      rw [hbalFac, hfac₂]
      exact mul_lt_mul_of_pos_right
        (mul_lt_mul_of_pos_left hlb hprevFac) hmQ
    have hnum₂ : 0 < clampedNumerator log prevLoan b₂ months :=
      lt_trans hnum hnumlt
    refine ⟨_, scoreCore_some_pos log pay countLP totalLoan countLoans
      request prevLoan b₂ months hp hc2 ht hlt hc5 hr hlr hnum₂, ?_⟩
    rw [hse]
    exact (div_lt_div_iff_of_pos_right hden).2 hnumlt
  · intro r₂ hrr
    have hr₂ : 0 < r₂ := lt_trans hr hrr
    have hlrr : log request < log r₂ := hmono request r₂ hr hrr
    have hlr₂ : 0 < log r₂ := lt_trans hlr hlrr
    have hc2Q : (0 : ℚ) < (countLP : ℚ) := by
      exact_mod_cast Nat.pos_of_ne_zero hc2
    have hc5Q : (0 : ℚ) < (countLoans : ℚ) := by
      exact_mod_cast Nat.pos_of_ne_zero hc5
    have hdenlt : denomProduct log pay countLP totalLoan countLoans request <
        denomProduct log pay countLP totalLoan countLoans r₂ := by
      unfold denomProduct
      exact mul_lt_mul_of_pos_left hlrr
        (mul_pos (mul_pos (mul_pos hp hc2Q) hlt) hc5Q)
    refine ⟨_, scoreCore_some_pos log pay countLP totalLoan countLoans
      r₂ prevLoan balance months hp hc2 ht hlt hc5 hr₂ hlr₂ hnum, ?_⟩
    rw [hse]
    exact div_lt_div_of_pos_left hnum hden hdenlt
  · intro m₂ hm₂
    have hmQ₂ : (months : ℚ) < (m₂ : ℚ) := by exact_mod_cast hm₂
    have hnumlt : clampedNumerator log prevLoan balance months <
        clampedNumerator log prevLoan balance m₂ := by
      unfold clampedNumerator
      exact mul_lt_mul_of_pos_left hmQ₂ hbalProd
    have hnum₂ : 0 < clampedNumerator log prevLoan balance m₂ :=
      lt_trans hnum hnumlt
    refine ⟨_, scoreCore_some_pos log pay countLP totalLoan countLoans
      request prevLoan balance m₂ hp hc2 ht hlt hc5 hr hlr hnum₂, ?_⟩
    rw [hse]
    exact (div_lt_div_iff_of_pos_right hden).2 hnumlt

/-- C7 witness: at a concrete history with score 4/27 (balance 5, request
10, one paid-but-unrepaid month), raising the balance to 6 strictly raises
the score. -/
theorem scoreCore_monotonicity_witness :
    ∃ s₂, scoreCore wLog (some 3) 1 10 1 10 (some (some 10)) 6 1 =
      some s₂ ∧ (4 / 27 : ℚ) < s₂ :=
  (scoreCore_monotonicity wLog
    (fun x y _ hxy => by simp only [wLog]; linarith)
    (some 3) 1 10 1 10 (some (some 10)) 5 1 (4 / 27)
    (by norm_num [scoreCore, clampedNumerator, denomProduct,
      logPrevLoanFactor, logBalanceFactor, wLog])
    (by norm_num)).1 6 (by norm_num)

/-! ### Lemmas about persistence and the orchestrator pipeline -/

theorem hasLoanForPeriod_iff_any (db : DB) (y m : Nat) :
    hasLoanForPeriod db y m ↔
      db.loans.any (fun l0 =>
        decide (l0.jalali_year = y ∧ l0.jalali_month = m)) = true := by
  simp [hasLoanForPeriod, List.any_eq_true]

theorem createLoan_ok (db : DB) (l : Loan)
    (h : ¬ hasLoanForPeriod db l.jalali_year l.jalali_month) :
    createLoan db l = Except.ok ({ db with loans := db.loans ++ [l] }, l) := by
  unfold createLoan
  rw [if_neg]
  intro hc
  exact h ((hasLoanForPeriod_iff_any db l.jalali_year l.jalali_month).2 hc)

theorem createLoan_dup (db : DB) (l : Loan)
    (h : hasLoanForPeriod db l.jalali_year l.jalali_month) :
    createLoan db l = Except.error dupMessage := by
  unfold createLoan
  rw [if_pos ((hasLoanForPeriod_iff_any db l.jalali_year l.jalali_month).1 h)]

theorem createLoan_ok_inv (db : DB) (l : Loan) (db₂ : DB) (l₂ : Loan)
    (h : createLoan db l = Except.ok (db₂, l₂)) :
    l₂ = l ∧ db₂ = { db with loans := db.loans ++ [l] } ∧
      ¬ hasLoanForPeriod db l.jalali_year l.jalali_month := by
  unfold createLoan at h
  split_ifs at h with hc
  rw [Except.ok.injEq, Prod.mk.injEq] at h
  exact ⟨h.2.symm, h.1.symm,
    fun hp => hc ((hasLoanForPeriod_iff_any db _ _).1 hp)⟩

theorem run_eq_error_unpaid (log : ℚ → ℚ) (r : Nat) (db : DB) (y m : Nat)
    (h : unpaidUsers db y m ≠ []) :
    run_loan_assignment log r db y m =
      Except.error
        (unpaidMessage y m ((unpaidUsers db y m).map (·.username))) := by
  unfold run_loan_assignment
  rw [if_pos h]

theorem run_eq_no_eligible (log : ℚ → ℚ) (r : Nat) (db : DB) (y m : Nat)
    (h0 : unpaidUsers db y m = []) (h1 : eligibleUsers db = []) :
    run_loan_assignment log r db y m =
      createLoan db (noEligibleRow db y m) := by
  unfold run_loan_assignment
  rw [if_neg (by simp [h0]), if_pos h1]

theorem run_eq_no_fundable (log : ℚ → ℚ) (r : Nat) (db : DB) (y m : Nat)
    (h0 : unpaidUsers db y m = []) (h1 : eligibleUsers db ≠ [])
    (h2 : fundableScores log db = []) :
    run_loan_assignment log r db y m =
      createLoan db (noFundableRow log db y m) := by
  unfold run_loan_assignment
  rw [if_neg (by simp [h0]), if_neg h1, if_pos h2]

theorem run_eq_active_of (log : ℚ → ℚ) (r : Nat) (db : DB) (y m : Nat)
    (w : UserScore) (h0 : unpaidUsers db y m = [])
    (h1 : eligibleUsers db ≠ []) (h2 : fundableScores log db ≠ [])
    (hw : (maxScoreGroup log db)[r % (maxScoreGroup log db).length]? =
      some w) :
    run_loan_assignment log r db y m =
      createLoan db (activeRow log db y m w) := by
  unfold run_loan_assignment
  rw [if_neg (by simp [h0]), if_neg h1, if_neg h2, hw]

/-- Inversion: every successful run appends exactly one loan row for the
target period to an otherwise-unchanged database (the period was free),
and that row is one of the three terminal rows. -/
theorem run_ok_inv (log : ℚ → ℚ) (r : Nat) (db : DB) (y m : Nat)
    (db₂ : DB) (l : Loan)
    (h : run_loan_assignment log r db y m = Except.ok (db₂, l)) :
    unpaidUsers db y m = [] ∧
    db₂ = { db with loans := db.loans ++ [l] } ∧
    ¬ hasLoanForPeriod db y m ∧
    l.jalali_year = y ∧ l.jalali_month = m ∧
    (l = noEligibleRow db y m ∧ eligibleUsers db = [] ∨
     l = noFundableRow log db y m ∧ eligibleUsers db ≠ [] ∧
       fundableScores log db = [] ∨
     ∃ w, w ∈ maxScoreGroup log db ∧ l = activeRow log db y m w ∧
       eligibleUsers db ≠ [] ∧ fundableScores log db ≠ []) := by
  unfold run_loan_assignment at h
  by_cases h0 : unpaidUsers db y m = []
  · rw [if_neg (by simp [h0])] at h
    by_cases h1 : eligibleUsers db = []
    · rw [if_pos h1] at h
      obtain ⟨rfl, rfl, hnd⟩ := createLoan_ok_inv _ _ _ _ h
      exact ⟨h0, rfl, hnd, rfl, rfl, Or.inl ⟨rfl, h1⟩⟩
    · rw [if_neg h1] at h
      by_cases h2 : fundableScores log db = []
      · rw [if_pos h2] at h
        obtain ⟨rfl, rfl, hnd⟩ := createLoan_ok_inv _ _ _ _ h
        exact ⟨h0, rfl, hnd, rfl, rfl, Or.inr (Or.inl ⟨rfl, h1, h2⟩)⟩
      · rw [if_neg h2] at h
        cases hw : (maxScoreGroup log db)[r % (maxScoreGroup log db).length]?
          with
        | none => rw [hw] at h; exact absurd h (by simp)
        | some w =>
          rw [hw] at h
          obtain ⟨rfl, rfl, hnd⟩ := createLoan_ok_inv _ _ _ _ h
          exact ⟨h0, rfl, hnd, rfl, rfl,
            Or.inr (Or.inr ⟨w, List.getElem?_mem hw, rfl, h1, h2⟩)⟩
  · rw [if_pos h0] at h
    exact absurd h (by simp)

theorem wDB9_lastPayment : lastPayment wDB9 9 = some wPay9a := by
  norm_num [lastPayment, wDB9, wPay9a, wPay9b, periodLt,
    List.foldl_cons, List.foldl_nil]

theorem wDB9_countLP : totalUserLoanPayments wDB9 9 = 1 := by
  norm_num [totalUserLoanPayments, paymentUser, wDB9, wLP9, wPay9a, wPay9b,
    List.find?]

theorem wDB9_totalLoanAmount : totalLoanAmount wDB9 9 = 10 := by
  norm_num [totalLoanAmount, activeLoans, wDB9, wLoan9,
    List.filterMap_cons, List.sum_cons]

theorem wDB9_countLoans : totalLoanUserGet wDB9 9 = 1 := by
  norm_num [totalLoanUserGet, activeLoans, wDB9, wLoan9]

theorem wDB9_previousLoan : previousLoan wDB9 9 = some wLoan9 := by
  norm_num [previousLoan, activeLoans, wDB9, wLoan9,
    List.foldl_cons, List.foldl_nil]

theorem wDB9_months : totalMonthNoLoan wDB9 9 = 1 := by
  norm_num [totalMonthNoLoan, totalPaymentsCount, monthsWithLoanPayment,
    wDB9, wPay9a, wPay9b, wLP9, List.find?, List.filterMap_cons]

/-- Evaluation: user 9's score in `wDB9` is exactly the rational 1/3
(numerator 9 * 4 * 1 = 36, denominator 3 * 1 * 9 * 1 * 4 = 108). -/
theorem wDB9_score : compute_user_score wLog wDB9 wUserB = some (1 / 3) := by
  have h1 : compute_user_score wLog wDB9 wUserB =
      scoreCore wLog ((lastPayment wDB9 9).map Payment.amount)
        (totalUserLoanPayments wDB9 9) (totalLoanAmount wDB9 9)
        (totalLoanUserGet wDB9 9) 5
        ((previousLoan wDB9 9).map Loan.amount) 5
        (totalMonthNoLoan wDB9 9) := rfl
  rw [h1, wDB9_lastPayment, wDB9_countLP, wDB9_totalLoanAmount,
    wDB9_countLoans, wDB9_previousLoan, wDB9_months]
  exact Eq.trans
    (scoreCore_some_pos wLog 3 1 10 1 5 (some (some 10)) 5 1
      (by norm_num) (by norm_num) (by norm_num) (by norm_num [wLog])
      (by norm_num) (by norm_num) (by norm_num [wLog])
      (by norm_num [clampedNumerator, logPrevLoanFactor, logBalanceFactor,
        wLog]))
    (by norm_num [clampedNumerator, denomProduct, logPrevLoanFactor,
      logBalanceFactor, wLog])

/-- C9 counterexample: user 9's score is exactly 1/3, while a quotient
produced by fixed-point decimal division at 8 fractional digits would be
the quantized 33333333/100000000 — the two differ, so the score is not
computed at a fixed precision of 8 fractional digits (the source divides
at the decimal context's default precision and stores the full quotient). -/
theorem score_not_eight_fraction_digits :
    compute_user_score wLog wDB9 wUserB = some (1 / 3) ∧
    quantize8 (1 / 3) ≠ (1 / 3 : ℚ) := by
  refine ⟨wDB9_score, ?_⟩
  norm_num [quantize8, roundHalfEven]

/-- C9 amended: for every member whose score is finite and positive, the
returned score equals exactly the clamped numerator product divided by the
denominator product, as exact (decimal, not binary-floating-point)
division; the quotient is NOT quantized to 8 fractional digits. -/
theorem compute_user_score_eq_div (log : ℚ → ℚ) (db : DB) (u : User)
    (s : ℚ) (h : compute_user_score log db u = some s) (hs : 0 < s) :
    ∃ p, lastPayment db u.id = some p ∧
      s = clampedNumerator log ((previousLoan db u.id).map Loan.amount)
            u.balance (totalMonthNoLoan db u.id) /
          denomProduct log p.amount (totalUserLoanPayments db u.id)
            (totalLoanAmount db u.id) (totalLoanUserGet db u.id)
            u.loan_request_amount := by
  obtain ⟨pay, hpay, h2, h3, h4, h5, h6, h7, h8, h9, hse⟩ :=
    scoreCore_pos_inv log ((lastPayment db u.id).map Payment.amount)
      (totalUserLoanPayments db u.id) (totalLoanAmount db u.id)
      (totalLoanUserGet db u.id) u.loan_request_amount
      ((previousLoan db u.id).map Loan.amount) u.balance
      (totalMonthNoLoan db u.id) s h hs
  cases hlp : lastPayment db u.id with
  | none => rw [hlp] at hpay; simp at hpay
  | some p =>
    rw [hlp] at hpay
    have hpa : p.amount = pay := by simpa using hpay
    exact ⟨p, rfl, by rw [hse, ← hpa]⟩

/-- C9 witness: applying the exact-division characterization at the
concrete database `wDB9`, where the score is 1/3. -/
theorem compute_user_score_eq_div_witness :
    ∃ p, lastPayment wDB9 wUserB.id = some p ∧
      (1 / 3 : ℚ) =
        clampedNumerator wLog ((previousLoan wDB9 wUserB.id).map Loan.amount)
            wUserB.balance (totalMonthNoLoan wDB9 wUserB.id) /
          denomProduct wLog p.amount (totalUserLoanPayments wDB9 wUserB.id)
            (totalLoanAmount wDB9 wUserB.id) (totalLoanUserGet wDB9 wUserB.id)
            wUserB.loan_request_amount :=
  compute_user_score_eq_div wLog wDB9 wUserB (1 / 3) wDB9_score (by norm_num)

/-- C10: when there are no active members at all, the run does not raise
the missing-payment precondition error: (with the period still free) it
succeeds and persists an UNALLOCATED (`no_one`) allocation for the period
whose audit log has empty `not_participated` and `participated` lists,
null `selected`, and an empty `random_pool`. -/
theorem run_no_active_users (log : ℚ → ℚ) (r : Nat) (db : DB) (y m : Nat)
    (hactive : activeUsers db = []) (hdup : ¬ hasLoanForPeriod db y m) :
    run_loan_assignment log r db y m =
      Except.ok ({ db with loans := db.loans ++ [noEligibleRow db y m] },
        noEligibleRow db y m) ∧
    (noEligibleRow db y m).state = LoanState.no_one ∧
    (noEligibleRow db y m).log.not_participated = [] ∧
    (noEligibleRow db y m).log.participated = [] ∧
    (noEligibleRow db y m).log.selected = none ∧
    (noEligibleRow db y m).log.random_pool = [] := by
  have h0 : unpaidUsers db y m = [] := by simp [unpaidUsers, hactive]
  have h1 : eligibleUsers db = [] := by simp [eligibleUsers, hactive]
  have hnp : notParticipatedList db = [] := by
    simp [notParticipatedList, hactive]
  refine ⟨?_, rfl, ?_, rfl, rfl, rfl⟩
  · rw [run_eq_no_eligible log r db y m h0 h1]
    exact createLoan_ok db _ hdup
  · simp [noEligibleRow, hnp]

/-- C10 witness: on the completely empty database, running for 1403/1
succeeds with the empty-log `no_one` allocation. -/
theorem run_no_active_users_witness :
    run_loan_assignment wLog 0 wDBe 1403 1 =
      Except.ok
        ({ wDBe with loans := wDBe.loans ++ [noEligibleRow wDBe 1403 1] },
          noEligibleRow wDBe 1403 1) ∧
    (noEligibleRow wDBe 1403 1).log.not_participated = [] :=
  ⟨(run_no_active_users wLog 0 wDBe 1403 1 rfl
      (by simp [hasLoanForPeriod, wDBe])).1,
    (run_no_active_users wLog 0 wDBe 1403 1 rfl
      (by simp [hasLoanForPeriod, wDBe])).2.2.1⟩

/-- C6: if at least one active member has no payment for the target
period, the run aborts with the error message built from exactly the
unpaid active members (every active member without a payment for the
period, in member order), and never returns a success — no allocation is
created and, the result being an error, no state is changed. -/
theorem run_missing_payment (log : ℚ → ℚ) (r : Nat) (db : DB) (y m : Nat)
    (h : unpaidUsers db y m ≠ []) :
    run_loan_assignment log r db y m =
      Except.error
        (unpaidMessage y m ((unpaidUsers db y m).map (·.username))) ∧
    (∀ u, u ∈ unpaidUsers db y m ↔ u ∈ activeUsers db ∧
      ¬ ∃ p ∈ db.payments, p.user = u.id ∧ p.jalali_year = y ∧
        p.jalali_month = m) ∧
    ∀ db₂ l, run_loan_assignment log r db y m ≠ Except.ok (db₂, l) := by
  refine ⟨run_eq_error_unpaid log r db y m h, ?_, ?_⟩
  · intro u
    simp [unpaidUsers, List.mem_filter, List.any_eq_true]
  · intro db₂ l hok
    rw [run_eq_error_unpaid log r db y m h] at hok
    exact absurd hok (by simp)

/-- C6 witness: user 1 of `wDB0` paid only for 1403/1, so a run for 1404/1
aborts with the error naming user 1 as unpaid. -/
theorem run_missing_payment_witness :
    run_loan_assignment wLog 0 wDB0 1404 1 =
      Except.error
        (unpaidMessage 1404 1 ((unpaidUsers wDB0 1404 1).map (·.username))) :=
  (run_missing_payment wLog 0 wDB0 1404 1 (by decide)).1

theorem any_score_none_iff (log : ℚ → ℚ) (db : DB) :
    ((fundableScores log db).any (fun us => decide (us.score = none)) =
        true) ↔
      ∃ v ∈ fundableScores log db, v.score = none := by
  simp [List.any_eq_true]

/-- Membership characterization of the winner group: exactly the
affordable candidates with unlimited score when one exists, otherwise
exactly the affordable candidates whose finite score is maximal. -/
theorem mem_maxScoreGroup_iff (log : ℚ → ℚ) (db : DB) (us : UserScore) :
    us ∈ maxScoreGroup log db ↔
      us ∈ fundableScores log db ∧
      (if ∃ v ∈ fundableScores log db, v.score = none
       then us.score = none
       else ∃ p, us.score = some p ∧
         ∀ v ∈ fundableScores log db, ∀ q, v.score = some q → q ≤ p) := by
  unfold maxScoreGroup
  by_cases hu : ∃ v ∈ fundableScores log db, v.score = none
  · rw [if_pos ((any_score_none_iff log db).2 hu), if_pos hu]
    simp [List.mem_filter]
  · rw [if_neg (fun hc => hu ((any_score_none_iff log db).1 hc)), if_neg hu]
    cases hmx : ((fundableScores log db).filterMap (·.score)).max? with
    | none =>
      rw [List.max?_eq_none_iff] at hmx
      constructor
      · intro h
        exact absurd h (List.not_mem_nil us)
      · rintro ⟨hmem, p, hp, -⟩
        have hpm : p ∈ (fundableScores log db).filterMap (·.score) :=
          List.mem_filterMap.2 ⟨us, hmem, hp⟩
        rw [hmx] at hpm
        exact absurd hpm (List.not_mem_nil p)
    | some mx =>
      have hmxmem : mx ∈ (fundableScores log db).filterMap (·.score) :=
        List.max?_mem (fun a b => max_choice a b) hmx
      obtain ⟨v0, hv0, hv0s⟩ := List.mem_filterMap.1 hmxmem
      have hle : ∀ q ∈ (fundableScores log db).filterMap (·.score),
          q ≤ mx :=
        fun q hq =>
          (List.max?_le_iff (fun a b c => max_le_iff) hmx).1 (le_refl mx) q hq
      constructor
      · intro h
        have hm2 := List.mem_filter.1 h
        refine ⟨hm2.1, mx, by simpa using hm2.2, ?_⟩
        intro v hv q hq
        exact hle q (List.mem_filterMap.2 ⟨v, hv, hq⟩)
      · rintro ⟨hmem, p, hp, hmax⟩
        have h1 : p ≤ mx := hle p (List.mem_filterMap.2 ⟨us, hmem, hp⟩)
        have h2 : mx ≤ p := hmax v0 hv0 mx hv0s
        have hpm : p = mx := le_antisymm h1 h2
        exact List.mem_filter.2 ⟨hmem, by simp [hp, hpm]⟩

theorem maxScoreGroup_ne_nil (log : ℚ → ℚ) (db : DB)
    (h : fundableScores log db ≠ []) : maxScoreGroup log db ≠ [] := by
  obtain ⟨us, hus⟩ := List.exists_mem_of_ne_nil _ h
  by_cases hs : ∃ v ∈ fundableScores log db, v.score = none
  · obtain ⟨v, hv, hvs⟩ := hs
    intro hnil
    have hvm : v ∈ maxScoreGroup log db :=
      (mem_maxScoreGroup_iff log db v).2
        ⟨hv, by rw [if_pos ⟨v, hv, hvs⟩]; exact hvs⟩
    rw [hnil] at hvm
    exact absurd hvm (List.not_mem_nil v)
  · cases hq : us.score with
    | none => exact absurd ⟨us, hus, hq⟩ hs
    | some q =>
      have hne : (fundableScores log db).filterMap (·.score) ≠ [] := by
        intro h0
        have hqm : q ∈ (fundableScores log db).filterMap (·.score) :=
          List.mem_filterMap.2 ⟨us, hus, hq⟩
        rw [h0] at hqm
        exact absurd hqm (List.not_mem_nil q)
      cases hmx : ((fundableScores log db).filterMap (·.score)).max? with
      | none => exact absurd (List.max?_eq_none_iff.1 hmx) hne
      | some mx =>
        obtain ⟨v0, hv0, hv0s⟩ := List.mem_filterMap.1
          (List.max?_mem (fun a b => max_choice a b) hmx)
        intro hnil
        have hv0m : v0 ∈ maxScoreGroup log db := by
          apply (mem_maxScoreGroup_iff log db v0).2
          refine ⟨hv0, ?_⟩
          rw [if_neg hs]
          exact ⟨mx, hv0s, fun v hv q2 hq2 =>
            (List.max?_le_iff (fun a b c => max_le_iff) hmx).1 (le_refl mx)
              q2 (List.mem_filterMap.2 ⟨v, hv, hq2⟩)⟩
        rw [hnil] at hv0m
        exact absurd hv0m (List.not_mem_nil v0)

theorem maxScoreGroup_winner (log : ℚ → ℚ) (db : DB) (r : Nat)
    (h : fundableScores log db ≠ []) :
    ∃ w, (maxScoreGroup log db)[r % (maxScoreGroup log db).length]? =
        some w ∧
      w ∈ maxScoreGroup log db := by
  have hne := maxScoreGroup_ne_nil log db h
  have hlen : 0 < (maxScoreGroup log db).length := List.length_pos.2 hne
  have hlt : r % (maxScoreGroup log db).length <
      (maxScoreGroup log db).length := Nat.mod_lt r hlen
  exact ⟨(maxScoreGroup log db)[r % (maxScoreGroup log db).length],
    List.getElem?_eq_getElem hlt, List.getElem_mem hlt⟩

/-! ### Evaluation of the successful-run scenario `wDBr` -/

theorem wDBr_unpaid : unpaidUsers wDBr 1403 1 = [] := by decide

theorem wDBr_score : compute_user_score wLog wDBr wUserR = none := by
  have h1 : compute_user_score wLog wDBr wUserR =
      scoreCore wLog ((lastPayment wDBr 1).map Payment.amount)
        (totalUserLoanPayments wDBr 1) (totalLoanAmount wDBr 1)
        (totalLoanUserGet wDBr 1) 50
        ((previousLoan wDBr 1).map Loan.amount) 100
        (totalMonthNoLoan wDBr 1) := rfl
  have h2 : lastPayment wDBr 1 = some wPayR := by
    norm_num [lastPayment, wDBr, wPayR, List.foldl_cons, List.foldl_nil]
  have h3 : totalUserLoanPayments wDBr 1 = 0 := by
    norm_num [totalUserLoanPayments, wDBr]
  rw [h1, h2, h3]
  norm_num [scoreCore]

theorem wDBr_eligible : eligibleUsers wDBr = [wUserR] := by
  norm_num [eligibleUsers, activeUsers, eligibilityReason, hasActiveLoan,
    wDBr, wUserR]

theorem wDBr_fundable : fundableScores wLog wDBr = [wScoreR] := by
  have h1 : userScores wLog wDBr = [wScoreR] := by
    rw [userScores, wDBr_eligible, List.map_cons, List.map_nil, wDBr_score]
    rfl
  rw [fundableScores, h1]
  norm_num [saghatBalance, wDBr, wUserR, wScoreR]

theorem wDBr_group : maxScoreGroup wLog wDBr = [wScoreR] := by
  rw [maxScoreGroup, wDBr_fundable]
  simp [wScoreR]

theorem wDBr_run : run_loan_assignment wLog 0 wDBr 1403 1 =
    Except.ok (wDBr2, wLoanR) := by
  have hw : (maxScoreGroup wLog wDBr)[0 % (maxScoreGroup wLog wDBr).length]? =
      some wScoreR := by
    rw [wDBr_group]
    rfl
  rw [run_eq_active_of wLog 0 wDBr 1403 1 wScoreR wDBr_unpaid
    (by rw [wDBr_eligible]; simp) (by rw [wDBr_fundable]; simp) hw]
  exact createLoan_ok wDBr wLoanR (by simp [hasLoanForPeriod, wDBr])

/-- C2: for every run that reaches winner selection (returns an ACTIVE
allocation): the winner group is exactly the affordable candidates with
unlimited score when one exists, otherwise exactly the affordable
candidates whose finite score equals the maximum; the chosen winner is a
member of that group; the persisted audit log's `random_pool` is exactly
the group's member-id list; and the committed ACTIVE allocation has
member = the winner, amount = the winner's requested loan amount, and
`min_amount_for_each_payment` copied from the current fund
configuration. -/
theorem winner_selection (log : ℚ → ℚ) (r : Nat) (db : DB) (y m : Nat)
    (db₂ : DB) (l : Loan)
    (h : run_loan_assignment log r db y m = Except.ok (db₂, l))
    (hact : l.state = LoanState.active) :
    (∃ w ∈ maxScoreGroup log db,
      l.user = some w.user_id ∧
      l.amount = some w.loan_request_amount ∧
      l.min_amount_for_each_payment =
        some db.config.min_amount_for_loan_payment ∧
      l.log.selected = some w.user_id ∧
      l.log.random_pool = (maxScoreGroup log db).map UserScore.user_id) ∧
    (∀ us, us ∈ maxScoreGroup log db ↔
      us ∈ fundableScores log db ∧
      (if ∃ v ∈ fundableScores log db, v.score = none
       then us.score = none
       else ∃ p, us.score = some p ∧
         ∀ v ∈ fundableScores log db, ∀ q, v.score = some q → q ≤ p)) := by
  obtain ⟨-, -, -, -, -, hcase⟩ := run_ok_inv log r db y m db₂ l h
  refine ⟨?_, fun us => mem_maxScoreGroup_iff log db us⟩
  rcases hcase with ⟨rfl, -⟩ | ⟨rfl, -⟩ | ⟨w, hw, rfl, -⟩
  · exact absurd hact (by simp [noEligibleRow])
  · exact absurd hact (by simp [noFundableRow])
  · exact ⟨w, hw, rfl, rfl, rfl, rfl, rfl⟩

/-- C2 witness: the successful run on `wDBr` commits the ACTIVE allocation
for the sole (unlimited-score) candidate, with all the claimed fields. -/
theorem winner_selection_witness :
    ∃ w ∈ maxScoreGroup wLog wDBr,
      wLoanR.user = some w.user_id ∧
      wLoanR.amount = some w.loan_request_amount ∧
      wLoanR.min_amount_for_each_payment =
        some wDBr.config.min_amount_for_loan_payment ∧
      wLoanR.log.selected = some w.user_id ∧
      wLoanR.log.random_pool = (maxScoreGroup wLog wDBr).map
        UserScore.user_id :=
  (winner_selection wLog 0 wDBr 1403 1 wDBr2 wLoanR wDBr_run rfl).1

/-- C8: every allocation row produced by a successful run is terminal
(state ACTIVE or UNALLOCATED/`no_one`, never the conceptual PENDING
`initial`); its amount and winning member are non-null iff the state is
ACTIVE; and its audit log's `selected` is non-null iff the state is
ACTIVE. -/
theorem allocation_terminal (log : ℚ → ℚ) (r : Nat) (db : DB) (y m : Nat)
    (db₂ : DB) (l : Loan)
    (h : run_loan_assignment log r db y m = Except.ok (db₂, l)) :
    (l.state = LoanState.active ∨ l.state = LoanState.no_one) ∧
    (l.amount ≠ none ↔ l.state = LoanState.active) ∧
    (l.user ≠ none ↔ l.state = LoanState.active) ∧
    (l.log.selected ≠ none ↔ l.state = LoanState.active) := by
  obtain ⟨-, -, -, -, -, hcase⟩ := run_ok_inv log r db y m db₂ l h
  rcases hcase with ⟨rfl, -⟩ | ⟨rfl, -⟩ | ⟨w, -, rfl, -⟩ <;>
    simp [noEligibleRow, noFundableRow, activeRow]

/-- C8 witness: the allocation committed by the successful run on `wDBr`
satisfies the terminal-state and non-null-iff-ACTIVE invariants. -/
theorem allocation_terminal_witness :
    (wLoanR.state = LoanState.active ∨ wLoanR.state = LoanState.no_one) ∧
    (wLoanR.amount ≠ none ↔ wLoanR.state = LoanState.active) ∧
    (wLoanR.user ≠ none ↔ wLoanR.state = LoanState.active) ∧
    (wLoanR.log.selected ≠ none ↔ wLoanR.state = LoanState.active) :=
  allocation_terminal wLog 0 wDBr 1403 1 wDBr2 wLoanR wDBr_run

/-- C5: at most one allocation per period — a successful run preserves the
per-period uniqueness invariant and can only have created the row because
the period was free; and a second invocation for a period that already has
an allocation (the precondition still passing) fails with exactly the
uniqueness-violation error, creating and mutating nothing (the error
result carries no state). -/
theorem run_once_per_period (log : ℚ → ℚ) (r : Nat) (db : DB) (y m : Nat) :
    (∀ db₂ l, uniquePeriods db →
      run_loan_assignment log r db y m = Except.ok (db₂, l) →
      uniquePeriods db₂ ∧ ¬ hasLoanForPeriod db y m ∧
        db₂ = { db with loans := db.loans ++ [l] } ∧
        l.jalali_year = y ∧ l.jalali_month = m) ∧
    (hasLoanForPeriod db y m → unpaidUsers db y m = [] →
      run_loan_assignment log r db y m = Except.error dupMessage) := by
  constructor
  · intro db₂ l hup h
    obtain ⟨-, hdb, hnd, hy, hm, -⟩ := run_ok_inv log r db y m db₂ l h
    refine ⟨?_, hnd, hdb, hy, hm⟩
    rw [hdb]
    unfold uniquePeriods at *
    rw [List.pairwise_append]
    refine ⟨hup, List.pairwise_singleton _ _, ?_⟩
    intro a ha b hb
    rw [List.mem_singleton] at hb
    subst hb
    rintro ⟨hy2, hm2⟩
    exact hnd ⟨a, ha, by rw [hy2, hy], by rw [hm2, hm]⟩
  · intro hdup h0
    by_cases h1 : eligibleUsers db = []
    · rw [run_eq_no_eligible log r db y m h0 h1]
      exact createLoan_dup db _ hdup
    · by_cases h2 : fundableScores log db = []
      · rw [run_eq_no_fundable log r db y m h0 h1 h2]
        exact createLoan_dup db _ hdup
      · obtain ⟨w, hw, -⟩ := maxScoreGroup_winner log db r h2
        rw [run_eq_active_of log r db y m w h0 h1 h2 hw]
        exact createLoan_dup db _ hdup

/-- C5 witness: after the successful run on `wDBr`, a second run for the
same period 1403/1 fails with exactly the uniqueness-violation error. -/
theorem run_once_per_period_witness :
    run_loan_assignment wLog 0 wDBr2 1403 1 = Except.error dupMessage :=
  (run_once_per_period wLog 0 wDBr2 1403 1).2 (by decide) (by decide)

theorem eligibilityReason_none_iff (db : DB) (u : User) :
    eligibilityReason db u = none ↔
      (u.is_main = true ∨ u.loan_request_amount ≤ u.balance) ∧
      hasActiveLoan db u.id = false ∧ 0 < u.loan_request_amount := by
  unfold eligibilityReason
  split_ifs with hA hB hC
  · constructor
    · intro h
      cases h
    · rintro ⟨h1, -, -⟩
      rcases h1 with h1 | h1
      · rw [hA.1] at h1
        cases h1
      · exact absurd hA.2 (not_lt.2 h1)
  · constructor
    · intro h
      cases h
    · rintro ⟨-, h2, -⟩
      rw [hB] at h2
      cases h2
  · constructor
    · intro h
      cases h
    · rintro ⟨-, -, h3⟩
      exact absurd hC (not_le.2 h3)
  · constructor
    · intro _
      refine ⟨?_, ?_, ?_⟩
      · by_cases hm : u.is_main
        · exact Or.inl hm
        · right
          by_contra hle
          exact hA ⟨by simpa using hm, lt_of_not_le hle⟩
      · simpa using hB
      · exact lt_of_not_le hC
    · intro _
      rfl

theorem mem_notParticipated_iff (db : DB) (e : NotParticipatedEntry) :
    e ∈ notParticipatedList db ↔
      ∃ u ∈ activeUsers db, eligibilityReason db u = some e.reason ∧
        e.user_id = u.id ∧ e.username = u.username := by
  unfold notParticipatedList
  rw [List.mem_filterMap]
  constructor
  · rintro ⟨u, hu, hmap⟩
    cases hre : eligibilityReason db u with
    | none => rw [hre] at hmap; cases hmap
    | some s =>
      rw [hre] at hmap
      cases hmap
      exact ⟨u, hu, by rw [hre], rfl, rfl⟩
  · rintro ⟨u, hu, hre, hid, hname⟩
    refine ⟨u, hu, ?_⟩
    rw [hre]
    cases e
    simp_all

theorem notParticipated_ids (db : DB) :
    (notParticipatedList db).map NotParticipatedEntry.user_id =
      ((activeUsers db).filter
        (fun u => decide (eligibilityReason db u ≠ none))).map User.id := by
  unfold notParticipatedList
  induction activeUsers db with
  | nil => rfl
  | cons a t ih =>
    rw [List.filterMap_cons, List.filter_cons]
    cases hre : eligibilityReason db a with
    | none => simpa [hre] using ih
    | some s => simp [hre, ih]

/-- C3: the eligibility filter checks exactly three conditions in order
(request vs own balance unless main, active loan, opted out), records an
excluded member with exactly the first failing reason — one entry per
excluded member, in member order — admits members passing all three, and
when the eligible set is empty persists an UNALLOCATED (`no_one`)
allocation carrying the accumulated `not_participated` entries and no
`participated` entries. -/
theorem eligibility_filter (log : ℚ → ℚ) (r : Nat) (db : DB) (y m : Nat) :
    (∀ u ∈ activeUsers db,
      (u ∈ eligibleUsers db ↔
        (u.is_main = true ∨ u.loan_request_amount ≤ u.balance) ∧
        hasActiveLoan db u.id = false ∧ 0 < u.loan_request_amount)) ∧
    (∀ u, eligibilityReason db u =
      if u.is_main = false ∧ u.balance < u.loan_request_amount then
        some ("loan_request_amount (" ++ toString u.loan_request_amount ++
          ") > balance (" ++ toString u.balance ++ ")")
      else if hasActiveLoan db u.id then some "User has an active loan"
      else if u.loan_request_amount ≤ 0 then
        some "loan_request_amount is 0 (opted out)"
      else none) ∧
    (∀ e, e ∈ notParticipatedList db ↔
      ∃ u ∈ activeUsers db, eligibilityReason db u = some e.reason ∧
        e.user_id = u.id ∧ e.username = u.username) ∧
    ((notParticipatedList db).map NotParticipatedEntry.user_id =
      ((activeUsers db).filter
        (fun u => decide (eligibilityReason db u ≠ none))).map User.id) ∧
    (eligibleUsers db = [] → unpaidUsers db y m = [] →
      ¬ hasLoanForPeriod db y m →
      run_loan_assignment log r db y m =
        Except.ok
          ({ db with loans := db.loans ++ [noEligibleRow db y m] },
            noEligibleRow db y m) ∧
      (noEligibleRow db y m).state = LoanState.no_one ∧
      (noEligibleRow db y m).log.not_participated = notParticipatedList db ∧
      (noEligibleRow db y m).log.participated = []) := by
  refine ⟨?_, fun u => rfl, mem_notParticipated_iff db,
    notParticipated_ids db, ?_⟩
  · intro u hu
    rw [eligibleUsers, List.mem_filter]
    simp only [hu, true_and, decide_eq_true_eq]
    exact eligibilityReason_none_iff db u
  · intro h1 h0 hdup
    refine ⟨?_, rfl, rfl, rfl⟩
    rw [run_eq_no_eligible log r db y m h0 h1]
    exact createLoan_ok db _ hdup

theorem wDBo_eligible : eligibleUsers wDBo = [] := by
  norm_num [eligibleUsers, activeUsers, eligibilityReason, hasActiveLoan,
    wDBo, wUserC, wUserD]
  decide

/-- C3 witness: with both members opted out (request 0), the run persists
the `no_one` allocation with their two `not_participated` entries and no
`participated` entries. -/
theorem eligibility_filter_witness :
    run_loan_assignment wLog 0 wDBo 1403 1 =
      Except.ok
        ({ wDBo with loans := wDBo.loans ++ [noEligibleRow wDBo 1403 1] },
          noEligibleRow wDBo 1403 1) ∧
    (noEligibleRow wDBo 1403 1).state = LoanState.no_one ∧
    (noEligibleRow wDBo 1403 1).log.not_participated =
      notParticipatedList wDBo ∧
    (noEligibleRow wDBo 1403 1).log.participated = [] :=
  (eligibility_filter wLog 0 wDBo 1403 1).2.2.2.2 wDBo_eligible
    (by decide) (by simp [hasLoanForPeriod, wDBo])

/-- C4: the affordability filter keeps exactly the scored (participated)
members whose requested amount fits within the fund balance (the sum of
balances over all active members); every scored member appears in the
`participated` log even when unaffordable; and when no scored member is
affordable the run persists an UNALLOCATED (`no_one`) allocation carrying
both audit lists plus the note that no request fit the fund balance. -/
theorem affordability_filter (log : ℚ → ℚ) (r : Nat) (db : DB) (y m : Nat) :
    (∀ us, us ∈ fundableScores log db ↔
      us ∈ userScores log db ∧
        us.loan_request_amount ≤ saghatBalance db) ∧
    saghatBalance db = ((activeUsers db).map User.balance).sum ∧
    (participatedList log db).map ParticipatedEntry.user_id =
      (eligibleUsers db).map User.id ∧
    (∀ u ∈ eligibleUsers db,
      (⟨u.id, u.username, scoreStr (compute_user_score log db u)⟩ :
        ParticipatedEntry) ∈ participatedList log db) ∧
    (eligibleUsers db ≠ [] → fundableScores log db = [] →
      unpaidUsers db y m = [] → ¬ hasLoanForPeriod db y m →
      run_loan_assignment log r db y m =
        Except.ok
          ({ db with loans := db.loans ++ [noFundableRow log db y m] },
            noFundableRow log db y m) ∧
      (noFundableRow log db y m).state = LoanState.no_one ∧
      (noFundableRow log db y m).log.participated =
        participatedList log db ∧
      (noFundableRow log db y m).log.not_participated =
        notParticipatedList db ∧
      (noFundableRow log db y m).log.note = some affordNote) := by
  refine ⟨?_, rfl, ?_, ?_, ?_⟩
  · intro us
    rw [fundableScores, List.mem_filter]
    simp
  · rw [participatedList, List.map_map]
    rfl
  · intro u hu
    exact List.mem_map_of_mem _ hu
  · intro h1 h2 h0 hdup
    refine ⟨?_, rfl, rfl, rfl, rfl⟩
    rw [run_eq_no_fundable log r db y m h0 h1 h2]
    exact createLoan_ok db _ hdup

theorem wDBa_eligible : eligibleUsers wDBa = [wUserE] := by
  norm_num [eligibleUsers, activeUsers, eligibilityReason, hasActiveLoan,
    wDBa, wUserE]

theorem wDBa_score : compute_user_score wLog wDBa wUserE = none := by
  have h1 : compute_user_score wLog wDBa wUserE =
      scoreCore wLog ((lastPayment wDBa 31).map Payment.amount)
        (totalUserLoanPayments wDBa 31) (totalLoanAmount wDBa 31)
        (totalLoanUserGet wDBa 31) 11
        ((previousLoan wDBa 31).map Loan.amount) 10
        (totalMonthNoLoan wDBa 31) := rfl
  have h2 : lastPayment wDBa 31 = some wPayE := by
    norm_num [lastPayment, wDBa, wPayE, List.foldl_cons, List.foldl_nil]
  have h3 : totalUserLoanPayments wDBa 31 = 0 := by
    norm_num [totalUserLoanPayments, wDBa]
  rw [h1, h2, h3]
  norm_num [scoreCore]

theorem wDBa_fundable : fundableScores wLog wDBa = [] := by
  have h1 : userScores wLog wDBa =
      [⟨31, "erin", none, 11⟩] := by
    rw [userScores, wDBa_eligible, List.map_cons, List.map_nil, wDBa_score]
    rfl
  rw [fundableScores, h1]
  norm_num [saghatBalance, wDBa, wUserE]

/-- C4 witness: the single eligible (main) member requests 11 while the
whole fund holds 10, so the run persists the `no_one` allocation with the
affordability note and the member still present in `participated`. -/
theorem affordability_filter_witness :
    run_loan_assignment wLog 0 wDBa 1403 1 =
      Except.ok
        ({ wDBa with
            loans := wDBa.loans ++ [noFundableRow wLog wDBa 1403 1] },
          noFundableRow wLog wDBa 1403 1) ∧
    (noFundableRow wLog wDBa 1403 1).state = LoanState.no_one ∧
    (noFundableRow wLog wDBa 1403 1).log.participated =
      participatedList wLog wDBa ∧
    (noFundableRow wLog wDBa 1403 1).log.not_participated =
      notParticipatedList wDBa ∧
    (noFundableRow wLog wDBa 1403 1).log.note = some affordNote :=
  (affordability_filter wLog 0 wDBa 1403 1).2.2.2.2
    (by rw [wDBa_eligible]; simp) wDBa_fundable (by decide)
    (by simp [hasLoanForPeriod, wDBa])

end Saghat
